import Mathlib

/-!
Shallow embedding of `letta/llm_api/google_vertex.py`: the adapter between
the canonical OpenAI-style chat-completion representation and the Google
Vertex "contents/parts" dialect.  Pure data is modelled by Lean structures,
Python exceptions by `Except`, and the in-place mutation of shared parameter
dictionaries by an explicit store of parameter objects addressed by index.
-/

set_option autoImplicit false

namespace GoogleVertex

/-! ## Data model: target-dialect turns (the `contents` list) -/

/-- A single part of a target-dialect turn: `{"text": ...}`. -/
structure TurnPart where
  text : String
  deriving DecidableEq, Repr

/-- A target-dialect turn dict: `{"role": ..., "parts": [...]}`. -/
structure Turn where
  role : String
  parts : List TurnPart
  deriving DecidableEq, Repr

/-- Modelled from the spec: the filler text of the dummy turn begins with the
reserved non-user marker (the constant `NON_USER_MSG_PREFIX` lives in
`letta.constants`, which is not under `src/`); the exact text is irrelevant to
the claims, only that the turn has role `"model"`. -/
def dummy_yield_message : Turn :=
  { role := "model"
    parts := [{ text := "[NON-USER] Function call returned, waiting for user response." }] }

/-- Does the pair of adjacent turns trigger insertion of the dummy turn?
Mirrors `message["role"] in ["tool", "function"] and messages[i+1]["role"] == "user"`. -/
def needs_dummy (cur next : Turn) : Bool :=
  (cur.role = "tool" || cur.role = "function") && next.role = "user"

/-- Function `add_dummy_model_messages` from `google_vertex.py`: append each message,
and after a `tool`/`function`-role message whose successor is a `user`-role
message insert `dummy_yield_message`. -/
def add_dummy_model_messages : List Turn → List Turn
  | [] => []
  | [m] => [m]
  | m :: next :: rest =>
    if needs_dummy m next then
      m :: dummy_yield_message :: add_dummy_model_messages (next :: rest)
    else
      m :: add_dummy_model_messages (next :: rest)

/-- Number of adjacent pairs in the input that trigger an insertion. -/
def count_dummy_pairs : List Turn → Nat
  | [] => 0
  | [_] => 0
  | m :: next :: rest =>
    (if needs_dummy m next then 1 else 0) + count_dummy_pairs (next :: rest)

/-- Returns `true` iff no adjacent pair of the list triggers an insertion, i.e. no
`tool`/`function`-role turn is immediately followed by a `user`-role turn. -/
def flag_free : List Turn → Bool
  | [] => true
  | [_] => true
  | m :: next :: rest => !needs_dummy m next && flag_free (next :: rest)

/-! ## Data model: canonical (OpenAI-style) message dicts -/

/-- The `content` entry of a canonical message dict: a string, `None`, or a
(multimodal) list of parts. -/
inductive MsgContent where
  | null : MsgContent
  | text (s : String) : MsgContent
  | parts (l : List String) : MsgContent
  deriving DecidableEq, Repr

/-- Is the content a Python list?  (`isinstance(content, list)`.) -/
def MsgContent.isList : MsgContent → Bool
  | .parts _ => true
  | _ => false

/-- A canonical message dict as consumed by `to_google_ai`. -/
structure OpenAIMessage where
  role : String
  content : MsgContent
  deriving DecidableEq, Repr

/-- Python exceptions raised by the adapter. -/
inductive PyErr where
  | assertionError (msg : String) : PyErr
  | valueError (msg : String) : PyErr
  | nameError (msg : String) : PyErr
  deriving DecidableEq, Repr

/-- The turn dict that the body of `to_google_ai` builds for a supported
role (the value bound to `google_ai_message_dict` in the source). -/
def to_google_ai_built (m : OpenAIMessage) : Option Turn :=
  let contentText := match m.content with
    | .text s => s
    | _ => ""
  if m.role = "user" then
    some { role := "user", parts := [{ text := contentText }] }
  else if m.role = "assistant" then
    some { role := "model", parts := [{ text := contentText }] }
  else if m.role = "tool" then
    some { role := "function", parts := [{ text := contentText }] }
  else
    none

/-- Function `to_google_ai` from `google_vertex.py`.  The source asserts that the
content is not a list, builds `google_ai_message_dict` in each supported
branch, raises `ValueError` on an unsupported role, and then falls off the
end of the function without a `return` statement, so a successful call
returns Python `None`. -/
def to_google_ai (m : OpenAIMessage) : Except PyErr (Option Turn) :=
  if m.content.isList then
    .error (.assertionError "Multi-part content is message not yet supported")
  else if m.role = "user" then
    let _google_ai_message_dict := to_google_ai_built m
    .ok none
  else if m.role = "assistant" then
    let _google_ai_message_dict := to_google_ai_built m
    .ok none
  else if m.role = "tool" then
    let _google_ai_message_dict := to_google_ai_built m
    .ok none
  else
    .error (.valueError "Unsupported conversion from role")

/-! ## Tool schema translator

`convert_tools_to_google_ai_format` builds each function dict with
`parameters=t.function.parameters`, i.e. the *same* dictionary object as the
caller `Tool` object, and then mutates it in place.  To make this aliasing
observable we model the heap of parameter dictionaries explicitly: a store
(list) of parameter objects, with each tool holding an index into it. -/

/-- One entry of `parameters.properties`: `{"type": ..., "description": ...}`. -/
structure ParamProp where
  type : String
  description : String
  deriving DecidableEq, Repr

/-- A `parameters` JSON-schema dictionary. -/
structure FunctionParameters where
  type : String
  properties : List (String × ParamProp)
  required : List String
  deriving DecidableEq, Repr

/-- The `function` member of an OpenAI-style `Tool`; `parameters` is a
reference (store index) to the shared parameters dictionary. -/
structure ToolFunction where
  name : String
  description : String
  parameters : Nat
  deriving DecidableEq, Repr

/-- An OpenAI-style `Tool` (`t.function` is all the converter reads). -/
structure Tool where
  function : ToolFunction
  deriving DecidableEq, Repr

/-- Modelled from the spec: the reserved reasoning key injected into every
tool schema (`INNER_THOUGHTS_KWARG` lives in `letta.local_llm.constants`,
which is not under `src/`; the spec calls it a fixed reserved name). -/
def INNER_THOUGHTS_KWARG : String := "inner_thoughts"

/-- Modelled from the spec: the fixed description of the reserved reasoning
parameter (`INNER_THOUGHTS_KWARG_DESCRIPTION`, not under `src/`). -/
def INNER_THOUGHTS_KWARG_DESCRIPTION : String :=
  "Deep inner monologue private to you only."

/-- Python `str.upper()` on the ASCII type names the schemas use (defined by
structural recursion over the character list so that concrete instances
reduce inside the kernel). -/
def pyUpper (s : String) : String :=
  String.mk (s.data.map Char.toUpper)

/-- Python `dict[k] = v`: replace in place if the key exists, else append. -/
def dictSet (props : List (String × ParamProp)) (k : String) (v : ParamProp) :
    List (String × ParamProp) :=
  if (props.map Prod.fst).contains k then
    props.map (fun kv => if kv.1 = k then (k, v) else kv)
  else
    props ++ [(k, v)]

/-- The in-place mutation performed on one `func["parameters"]` dictionary:
force `type` to `"OBJECT"`, upper-case the `type` of every property, and, when
`inner_thoughts_in_kwargs` holds, add the reserved reasoning property and
append its name to `required`. -/
def translate_parameters (inner_thoughts_in_kwargs : Bool)
    (p : FunctionParameters) : FunctionParameters :=
  let p1 : FunctionParameters :=
    { type := "OBJECT"
      properties := p.properties.map (fun kv => (kv.1, { kv.2 with type := pyUpper kv.2.type }))
      required := p.required }
  if inner_thoughts_in_kwargs then
    { p1 with
      properties := dictSet p1.properties INNER_THOUGHTS_KWARG
        { type := "STRING", description := INNER_THOUGHTS_KWARG_DESCRIPTION }
      required := p1.required ++ [INNER_THOUGHTS_KWARG] }
  else
    p1

/-- One iteration of the `for func in function_list` loop: mutate the
parameters object at index `ref` of the store in place. -/
def convert_tools_step (inner_thoughts_in_kwargs : Bool)
    (store : List FunctionParameters) (ref : Nat) : List FunctionParameters :=
  match store.get? ref with
  | some p => store.set ref (translate_parameters inner_thoughts_in_kwargs p)
  | none => store

/-- An entry of the returned `functionDeclarations` list; `parameters` is the
same reference the tool held. -/
structure FunctionDecl where
  name : String
  description : String
  parameters : Nat
  deriving DecidableEq, Repr

/-- The single collection wrapping the declarations,
`{"functionDeclarations": [...]}`. -/
structure GoogleToolCollection where
  functionDeclarations : List FunctionDecl
  deriving DecidableEq, Repr

/-- Function `convert_tools_to_google_ai_format` from `google_vertex.py`: build
`function_list` (each entry sharing the `parameters` reference of its tool),
mutate every referenced parameters object in place, and return the single
wrapped collection together with the resulting heap of parameter objects. -/
def convert_tools_to_google_ai_format (tools : List Tool)
    (inner_thoughts_in_kwargs : Bool) (store : List FunctionParameters) :
    List GoogleToolCollection × List FunctionParameters :=
  let function_list : List FunctionDecl :=
    tools.map (fun t =>
      { name := t.function.name
        description := t.function.description
        parameters := t.function.parameters })
  let store1 :=
    function_list.foldl
      (fun s f => convert_tools_step inner_thoughts_in_kwargs s f.parameters) store
  ([{ functionDeclarations := function_list }], store1)

/-! ## Response interpreter: data model -/

/-- A JSON value appearing as a function-call argument. -/
inductive JsonVal where
  | null : JsonVal
  | str (s : String) : JsonVal
  | num (n : Int) : JsonVal
  | bool (b : Bool) : JsonVal
  deriving DecidableEq, Repr

/-- Look up a key in an argument mapping. -/
def lookupKey (args : List (String × JsonVal)) (k : String) : Option JsonVal :=
  match args.find? (fun kv => kv.1 = k) with
  | some kv => some kv.2
  | none => none

/-- Remove a key from an argument mapping (`dict.pop` leaves the rest). -/
def removeKey (args : List (String × JsonVal)) (k : String) :
    List (String × JsonVal) :=
  args.filter (fun kv => ¬ kv.1 = k)

/-- Render one JSON scalar. -/
def renderJsonVal : JsonVal → String
  | .null => "null"
  | .str s => "\"" ++ s ++ "\""
  | .num n => toString n
  | .bool b => if b then "true" else "false"

/-- Modelled from the spec: compact JSON serialization of an argument
mapping (`json_dumps` lives in `letta.helpers.json_helpers`, which is not
under `src/`; the spec says the remaining arguments "are serialized to a
compact JSON string"). -/
def json_dumps_args (args : List (String × JsonVal)) : String :=
  "\x7b" ++ String.intercalate ","
    (args.map (fun kv => "\"" ++ kv.1 ++ "\":" ++ renderJsonVal kv.2)) ++ "\x7d"

/-- Modelled from the spec: `clean_json_string_extra_backslash` lives in
`letta.local_llm.json_parser`, which is not under `src/`; the spec describes
the arguments field simply as the compact JSON serialization of the remaining
mapping, so the cleaning pass is the identity on it. -/
def clean_json_string_extra_backslash (s : String) : String := s

/-- A function-call payload of a response part. -/
structure RespFunctionCall where
  name : String
  args : List (String × JsonVal)
  deriving DecidableEq, Repr

/-- One part of the content of a candidate: either a function call or text. -/
structure RespPart where
  function_call : Option RespFunctionCall
  text : String
  deriving DecidableEq, Repr

/-- The field `candidate.content`: a role and a list of parts. -/
structure RespContent where
  role : String
  parts : List RespPart
  deriving DecidableEq, Repr

/-- One response candidate, with its finish reason (the string value of the
enum of the provider). -/
structure Candidate where
  content : RespContent
  finish_reason : String
  deriving DecidableEq, Repr

/-- The field `response.usage_metadata` when the provider returns it. -/
structure UsageMetadata where
  prompt_token_count : Nat
  candidates_token_count : Nat
  total_token_count : Nat
  deriving DecidableEq, Repr

/-- The response object of the provider, as read by the converter. -/
structure GenerateContentResponse where
  candidates : List Candidate
  usage_metadata : Option UsageMetadata
  deriving DecidableEq, Repr

/-! Canonical (OpenAI-style) response schema.  Modelled from the spec: the
pydantic classes live in `letta.schemas.openai.chat_completion_response`,
which is not under `src/`; the spec gives their shapes in its data model. -/

/-- The `FunctionCall` of a canonical tool call: name plus JSON-encoded
arguments string. -/
structure FunctionCall where
  name : String
  arguments : String
  deriving DecidableEq, Repr

/-- A canonical `ToolCall`. -/
structure ToolCall where
  id : String
  type : String
  function : FunctionCall
  deriving DecidableEq, Repr

/-- A canonical response `Message` (content carries the reasoning text). -/
structure Message where
  role : String
  content : Option JsonVal
  tool_calls : Option (List ToolCall)
  deriving DecidableEq, Repr

/-- A canonical `Choice`. -/
structure Choice where
  finish_reason : String
  index : Nat
  message : Message
  deriving DecidableEq, Repr

/-- Canonical `UsageStatistics`. -/
structure UsageStatistics where
  prompt_tokens : Nat
  completion_tokens : Nat
  total_tokens : Nat
  deriving DecidableEq, Repr

/-- Canonical `ChatCompletionResponse` (`created` is the injected UTC time). -/
structure ChatCompletionResponse where
  id : String
  choices : List Choice
  model : String
  created : Nat
  usage : UsageStatistics
  deriving DecidableEq, Repr

/-! ## Response interpreter: the conversion -/

/-- Convert one content part to an OpenAI-style message.  `tool_call_id` is
the value returned by the injected unique-id generator `get_tool_call_id`
for this part.  Mirrors the per-part branch of
`convert_google_ai_response_to_chatcompletion`. -/
def interp_part (pull_inner_thoughts_from_args : Bool) (tool_call_id : String)
    (p : RespPart) : Except PyErr Message :=
  match p.function_call with
  | some function_call =>
    let interpArgs : Except PyErr (Option JsonVal × List (String × JsonVal)) :=
      if pull_inner_thoughts_from_args then
        match lookupKey function_call.args INNER_THOUGHTS_KWARG with
        | none => .error (.assertionError "Could not find inner thoughts in function args")
        | some v =>
          if v = .null then
            .error (.assertionError "Expected non-null inner thoughts function arg")
          else
            .ok (some v, removeKey function_call.args INNER_THOUGHTS_KWARG)
      else
        .ok (none, function_call.args)
    match interpArgs with
    | .error e => .error e
    | .ok (inner_thoughts, function_args) =>
      .ok
        { role := "assistant"
          content := inner_thoughts
          tool_calls := some
            [{ id := tool_call_id
               type := "function"
               function :=
                 { name := function_call.name
                   arguments :=
                     clean_json_string_extra_backslash (json_dumps_args function_args) } }] }
  | none =>
    .ok { role := "assistant", content := some (.str p.text), tool_calls := none }

/-- Map the finish-reason string of the provider onto the canonical one, given the
message emitted for the part (`STOP` depends on whether it has tool calls). -/
def map_finish_reason (finish_reason : String) (msg : Message) :
    Except PyErr String :=
  if finish_reason = "STOP" then
    .ok (match msg.tool_calls with
      | some tcs => if tcs.length > 0 then "function_call" else "stop"
      | none => "stop")
  else if finish_reason = "MAX_TOKENS" then
    .ok "length"
  else if finish_reason = "SAFETY" then
    .ok "content_filter"
  else if finish_reason = "RECITATION" then
    .ok "content_filter"
  else
    .error (.valueError "Unrecognized finish reason in Google AI response")

/-- Mutable state of the candidate/part loop: the accumulated choices, the
global running index, and the last message bound to
`openai_response_message` (which the usage fallback reads after the loop). -/
structure LoopState where
  choices : List Choice
  index : Nat
  last_message : Option Message
  deriving DecidableEq, Repr

/-- Process one part: build the message, map the finish reason, append the
choice, and advance the index.  `gen_id` is the injected id generator,
indexed by the global part counter. -/
def process_part (pull_inner_thoughts_from_args : Bool) (gen_id : Nat → String)
    (finish_reason : String) (st : LoopState) (p : RespPart) :
    Except PyErr LoopState :=
  match interp_part pull_inner_thoughts_from_args (gen_id st.index) p with
  | .error e => .error e
  | .ok msg =>
    match map_finish_reason finish_reason msg with
    | .error e => .error e
    | .ok openai_finish_reason =>
      .ok
        { choices := st.choices ++
            [{ finish_reason := openai_finish_reason, index := st.index, message := msg }]
          index := st.index + 1
          last_message := some msg }

/-- The inner `for response_message in parts` loop. -/
def process_parts (pull_inner_thoughts_from_args : Bool) (gen_id : Nat → String)
    (finish_reason : String) : LoopState → List RespPart → Except PyErr LoopState
  | st, [] => .ok st
  | st, p :: ps =>
    match process_part pull_inner_thoughts_from_args gen_id finish_reason st p with
    | .error e => .error e
    | .ok st1 => process_parts pull_inner_thoughts_from_args gen_id finish_reason st1 ps

/-- Process one candidate: check the content role is `"model"`, then run the
per-part loop over its parts. -/
def process_candidate (pull_inner_thoughts_from_args : Bool)
    (gen_id : Nat → String) (st : LoopState) (cand : Candidate) :
    Except PyErr LoopState :=
  if cand.content.role = "model" then
    process_parts pull_inner_thoughts_from_args gen_id cand.finish_reason st
      cand.content.parts
  else
    .error (.assertionError "Unknown role in response")

/-- The outer `for candidate in response.candidates` loop. -/
def process_candidates (pull_inner_thoughts_from_args : Bool)
    (gen_id : Nat → String) : LoopState → List Candidate → Except PyErr LoopState
  | st, [] => .ok st
  | st, c :: cs =>
    match process_candidate pull_inner_thoughts_from_args gen_id st c with
    | .error e => .error e
    | .ok st1 => process_candidates pull_inner_thoughts_from_args gen_id st1 cs

/-- Modelled from the spec: JSON serialization of the input turn list, fed to
the injected token counter (`json_dumps` is not under `src/`). -/
def json_dumps_turns (msgs : List Turn) : String :=
  String.intercalate "," (msgs.map (fun m =>
    m.role ++ ":" ++ String.intercalate "|" (m.parts.map TurnPart.text)))

/-- Modelled from the spec: JSON serialization of the final response
message dump, fed to the injected token counter. -/
def json_dumps_message (m : Message) : String :=
  m.role ++ ":" ++
    (match m.content with
     | some v => renderJsonVal v
     | none => "null") ++ ":" ++
    (match m.tool_calls with
     | some tcs => String.intercalate ","
         (tcs.map (fun tc => tc.id ++ "/" ++ tc.type ++ "/" ++ tc.function.name ++ "/" ++
           tc.function.arguments))
     | none => "null")

/-- The usage branch at the end of the conversion: copy the native metadata
when present, otherwise estimate from the input turns and the final response
message via the injected `count_tokens`. -/
def compute_usage (count_tokens : String → Nat)
    (usage_metadata : Option UsageMetadata) (input_messages : Option (List Turn))
    (last_message : Option Message) : Except PyErr UsageStatistics :=
  match usage_metadata with
  | some um =>
    .ok
      { prompt_tokens := um.prompt_token_count
        completion_tokens := um.candidates_token_count
        total_tokens := um.total_token_count }
  | none =>
    match input_messages with
    | none => .error (.assertionError "input_messages is required")
    | some msgs =>
      match last_message with
      | none => .error (.nameError "openai_response_message")
      | some m =>
        let prompt_tokens := count_tokens (json_dumps_turns msgs)
        let completion_tokens := count_tokens (json_dumps_message m)
        .ok
          { prompt_tokens := prompt_tokens
            completion_tokens := completion_tokens
            total_tokens := prompt_tokens + completion_tokens }

/-- Function `convert_google_ai_response_to_chatcompletion` from `google_vertex.py`.
The injected collaborators the source imports (token counter, tool-call id
generator, response uuid, UTC timestamp) are passed as parameters. -/
def convert_google_ai_response_to_chatcompletion (count_tokens : String → Nat)
    (gen_id : Nat → String) (response_id : String) (created : Nat)
    (response : GenerateContentResponse) (model : String)
    (input_messages : Option (List Turn))
    (pull_inner_thoughts_from_args : Bool) :
    Except PyErr ChatCompletionResponse :=
  match process_candidates pull_inner_thoughts_from_args gen_id
      { choices := [], index := 0, last_message := none } response.candidates with
  | .error e => .error e
  | .ok st =>
    match compute_usage count_tokens response.usage_metadata input_messages
        st.last_message with
    | .error e => .error e
    | .ok usage =>
      .ok
        { id := response_id
          choices := st.choices
          model := model
          created := created
          usage := usage }

/-! ## Theorems -/

/-- C1: for every canonical message dict whose role is `"user"`, `"assistant"`
or `"tool"` and whose content is not a list, `to_google_ai` returns `None`:
the function builds the converted turn internally but has no `return`
statement, so no caller can obtain a converted turn from it. -/
theorem C1_to_google_ai_returns_none (m : OpenAIMessage)
    (hrole : m.role = "user" ∨ m.role = "assistant" ∨ m.role = "tool")
    (hcontent : m.content.isList = false) :
    to_google_ai m = .ok none := by
  unfold to_google_ai
  rcases hrole with h | h | h <;> simp [h, hcontent]

/-- Witness for C1 at a concrete tool-role message. -/
theorem C1_to_google_ai_returns_none_witness :
    to_google_ai { role := "tool", content := .text "result" } = .ok none :=
  C1_to_google_ai_returns_none _ (Or.inr (Or.inr rfl)) rfl

/-! Lemmas about the message normalizer. -/

theorem add_dummy_cons_head (x : Turn) (xs : List Turn) :
    ∃ t, add_dummy_model_messages (x :: xs) = x :: t := by
  cases xs with
  | nil => exact ⟨[], rfl⟩
  | cons y ys =>
    unfold add_dummy_model_messages
    by_cases h : needs_dummy x y
    · exact ⟨dummy_yield_message :: add_dummy_model_messages (y :: ys), by simp [h]⟩
    · exact ⟨add_dummy_model_messages (y :: ys), by simp [h]⟩

theorem needs_dummy_dummy_left (t : Turn) :
    needs_dummy dummy_yield_message t = false := by
  simp [needs_dummy, dummy_yield_message]

theorem needs_dummy_dummy_right (t : Turn) :
    needs_dummy t dummy_yield_message = false := by
  simp [needs_dummy, dummy_yield_message]

theorem flag_free_add_dummy : ∀ xs : List Turn,
    flag_free (add_dummy_model_messages xs) = true
  | [] => rfl
  | [_] => rfl
  | m :: next :: rest => by
    have ih := flag_free_add_dummy (next :: rest)
    obtain ⟨t, ht⟩ := add_dummy_cons_head next rest
    unfold add_dummy_model_messages
    by_cases h : needs_dummy m next
    · rw [ht] at ih ⊢
      simp [h, flag_free, needs_dummy_dummy_left, needs_dummy_dummy_right, ih]
    · rw [ht] at ih ⊢
      simp [h, flag_free, ih]

theorem sublist_add_dummy : ∀ xs : List Turn,
    xs.Sublist (add_dummy_model_messages xs)
  | [] => List.Sublist.refl []
  | [m] => List.Sublist.refl [m]
  | m :: next :: rest => by
    have ih := sublist_add_dummy (next :: rest)
    unfold add_dummy_model_messages
    by_cases h : needs_dummy m next
    · simp only [h, if_true]
      exact List.Sublist.cons₂ m (List.Sublist.cons _ ih)
    · simp only [h, if_false]
      exact List.Sublist.cons₂ m ih

theorem length_add_dummy : ∀ xs : List Turn,
    (add_dummy_model_messages xs).length = xs.length + count_dummy_pairs xs
  | [] => rfl
  | [_] => rfl
  | m :: next :: rest => by
    have ih := length_add_dummy (next :: rest)
    unfold add_dummy_model_messages count_dummy_pairs
    by_cases h : needs_dummy m next <;> simp [h, ih] <;> omega

theorem mem_add_dummy : ∀ (xs : List Turn) (t : Turn),
    t ∈ add_dummy_model_messages xs → t ∈ xs ∨ t = dummy_yield_message
  | [], t => by simp [add_dummy_model_messages]
  | [m], t => fun h => Or.inl (by simpa [add_dummy_model_messages] using h)
  | m :: next :: rest, t => by
    have ih := mem_add_dummy (next :: rest) t
    unfold add_dummy_model_messages
    by_cases h : needs_dummy m next
    · simp only [h, if_true]
      intro hmem
      rcases List.mem_cons.mp hmem with rfl | hmem1
      · exact Or.inl (List.mem_cons_self _ _)
      rcases List.mem_cons.mp hmem1 with rfl | hmem2
      · exact Or.inr rfl
      rcases ih hmem2 with hin | hd
      · exact Or.inl (List.mem_cons_of_mem _ hin)
      · exact Or.inr hd
    · simp only [h, if_false]
      intro hmem
      rcases List.mem_cons.mp hmem with rfl | hmem1
      · exact Or.inl (List.mem_cons_self _ _)
      rcases ih hmem1 with hin | hd
      · exact Or.inl (List.mem_cons_of_mem _ hin)
      · exact Or.inr hd

theorem flag_free_get? : ∀ (l : List Turn), flag_free l = true →
    ∀ (i : Nat) (a b : Turn), l.get? i = some a → l.get? (i + 1) = some b →
      needs_dummy a b = false
  | [], _, i, a, b => by simp
  | [m], _, i, a, b => by
    intro _ hb
    rcases i with _ | j <;> simp at hb
  | m :: next :: rest, hff, i, a, b => by
    have hff1 : needs_dummy m next = false ∧ flag_free (next :: rest) = true := by
      have := hff
      simp [flag_free] at this
      exact this
    intro ha hb
    cases i with
    | zero =>
      have ham : m = a := by simpa using ha
      have hbn : next = b := by simpa using hb
      subst ham
      subst hbn
      exact hff1.1
    | succ j =>
      exact flag_free_get? (next :: rest) hff1.2 j a b (by simpa using ha)
        (by simpa using hb)

/-- C4: the output of `add_dummy_model_messages` contains no
`tool`/`function`-role turn immediately followed by a `user`-role turn;
the input is an ordered sub-sequence of the output (nothing is reordered,
removed, or modified); every turn of the output is either an input turn or
the synthetic model-role filler; and exactly one filler is inserted per
adjacent tool-then-user pair of the input. -/
theorem C4_normalizer_adjacency_invariant (xs : List Turn) :
    (∀ (i : Nat) (a b : Turn),
        (add_dummy_model_messages xs).get? i = some a →
        (add_dummy_model_messages xs).get? (i + 1) = some b →
        (a.role = "tool" ∨ a.role = "function") → b.role ≠ "user") ∧
    xs.Sublist (add_dummy_model_messages xs) ∧
    (∀ t ∈ add_dummy_model_messages xs, t ∈ xs ∨ t = dummy_yield_message) ∧
    (add_dummy_model_messages xs).length = xs.length + count_dummy_pairs xs := by
  refine ⟨?_, sublist_add_dummy xs, mem_add_dummy xs, length_add_dummy xs⟩
  intro i a b ha hb hrole hb_user
  have hnd := flag_free_get? _ (flag_free_add_dummy xs) i a b ha hb
  rcases hrole with h | h <;> simp [needs_dummy, h, hb_user] at hnd

/-- Witness for C4 at a concrete tool-then-user sequence. -/
theorem C4_normalizer_adjacency_invariant_witness :
    (add_dummy_model_messages
        [{ role := "tool", parts := [] }, { role := "user", parts := [] }]).get? 0 =
      some { role := "tool", parts := [] } ∧
    (add_dummy_model_messages
        [{ role := "tool", parts := [] }, { role := "user", parts := [] }]).get? 1 =
      some dummy_yield_message ∧
    dummy_yield_message.role ≠ "user" := by
  refine ⟨by decide, by decide, ?_⟩
  exact (C4_normalizer_adjacency_invariant
      [{ role := "tool", parts := [] }, { role := "user", parts := [] }]).1
    0 { role := "tool", parts := [] } dummy_yield_message (by decide) (by decide)
    (Or.inl rfl)

theorem add_dummy_of_flag_free : ∀ xs : List Turn, flag_free xs = true →
    add_dummy_model_messages xs = xs
  | [], _ => rfl
  | [_], _ => rfl
  | m :: next :: rest, hff => by
    have hff1 : needs_dummy m next = false ∧ flag_free (next :: rest) = true := by
      simpa [flag_free] using hff
    have ih := add_dummy_of_flag_free (next :: rest) hff1.2
    unfold add_dummy_model_messages
    simp [hff1.1, ih]

/-- C10: the message normalizer is idempotent — running
`add_dummy_model_messages` on an already-padded sequence inserts nothing. -/
theorem C10_normalizer_idempotent (xs : List Turn) :
    add_dummy_model_messages (add_dummy_model_messages xs) =
      add_dummy_model_messages xs :=
  add_dummy_of_flag_free _ (flag_free_add_dummy xs)

/-! Lemmas about the tool schema translator. -/

theorem convert_tools_step_get_ne (inner : Bool) (store : List FunctionParameters)
    (i j : Nat) (hij : i ≠ j) :
    (convert_tools_step inner store i).get? j = store.get? j := by
  unfold convert_tools_step
  cases h : store.get? i with
  | none => rfl
  | some p => exact List.get?_set_ne _ store hij

theorem convert_tools_step_get_eq (inner : Bool) (store : List FunctionParameters)
    (i : Nat) (p : FunctionParameters) (hp : store.get? i = some p) :
    (convert_tools_step inner store i).get? i =
      some (translate_parameters inner p) := by
  unfold convert_tools_step
  rw [hp]
  have hi : i < store.length := List.get?_eq_some.mp hp |>.1
  rw [List.get?_set_eq_of_lt _ (by simpa using hi)]

theorem fold_convert_untouched (inner : Bool) :
    ∀ (refs : List Nat) (store : List FunctionParameters) (r : Nat), r ∉ refs →
      (refs.foldl (convert_tools_step inner) store).get? r = store.get? r
  | [], _, _, _ => rfl
  | ref :: rest, store, r, hr => by
    rw [List.foldl_cons]
    rw [fold_convert_untouched inner rest _ r (fun h => hr (List.mem_cons_of_mem _ h))]
    exact convert_tools_step_get_ne inner store ref r
      (fun h => hr (h ▸ List.mem_cons_self _ _))

theorem fold_convert_get (inner : Bool) :
    ∀ (refs : List Nat) (store : List FunctionParameters) (r : Nat),
      r ∈ refs → refs.Nodup →
      (refs.foldl (convert_tools_step inner) store).get? r =
        (store.get? r).map (translate_parameters inner)
  | [], _, r, hr, _ => absurd hr (List.not_mem_nil r)
  | ref :: rest, store, r, hr, hnd => by
    rw [List.foldl_cons]
    have hnd1 := List.nodup_cons.mp hnd
    rcases List.mem_cons.mp hr with rfl | hmem
    · rw [fold_convert_untouched inner rest _ r hnd1.1]
      cases hp : store.get? r with
      | none =>
        unfold convert_tools_step
        rw [hp]
        exact hp
      | some p => simpa [hp] using convert_tools_step_get_eq inner store r p hp
    · have hne : ref ≠ r := fun h => hnd1.1 (h ▸ hmem)
      rw [fold_convert_get inner rest _ r hmem hnd1.2,
        convert_tools_step_get_ne inner store ref r hne]

theorem convert_tools_snd_eq_fold (tools : List Tool) (inner : Bool)
    (store : List FunctionParameters) :
    (convert_tools_to_google_ai_format tools inner store).2 =
      (tools.map (fun t => t.function.parameters)).foldl
        (convert_tools_step inner) store := by
  simp only [convert_tools_to_google_ai_format, List.foldl_map]

/-- C5: the tool schema translator returns one collection wrapping a single
`functionDeclarations` list; for every descriptor (whose parameters object,
as the data model of the spec requires, is its own and does not already use the
reserved reasoning key) the resulting parameters object has `type` equal to
`"OBJECT"`, the `type` of every original property upper-cased, and — when
reasoning-in-arguments mode is enabled — the reserved reasoning key as an
extra `"STRING"`-typed property, with the reserved name appended last to
`required`. -/
theorem C5_convert_tools_schema (tools : List Tool) (inner : Bool)
    (store : List FunctionParameters)
    (hnd : (tools.map (fun t => t.function.parameters)).Nodup) :
    (convert_tools_to_google_ai_format tools inner store).1 =
      [{ functionDeclarations := tools.map (fun t =>
          { name := t.function.name
            description := t.function.description
            parameters := t.function.parameters }) }] ∧
    ∀ t ∈ tools, ∀ p : FunctionParameters,
      store.get? t.function.parameters = some p →
      ((p.properties.map Prod.fst).contains INNER_THOUGHTS_KWARG = false) →
      ∃ q : FunctionParameters,
        (convert_tools_to_google_ai_format tools inner store).2.get?
            t.function.parameters = some q ∧
        q.type = "OBJECT" ∧
        (inner = true →
          q.properties =
            p.properties.map (fun kv => (kv.1, { kv.2 with type := pyUpper kv.2.type })) ++
              [(INNER_THOUGHTS_KWARG,
                { type := "STRING", description := INNER_THOUGHTS_KWARG_DESCRIPTION })] ∧
          q.required = p.required ++ [INNER_THOUGHTS_KWARG]) ∧
        (inner = false →
          q.properties =
            p.properties.map (fun kv => (kv.1, { kv.2 with type := pyUpper kv.2.type })) ∧
          q.required = p.required) := by
  constructor
  · rfl
  intro t ht p hp hnokey
  refine ⟨translate_parameters inner p, ?_, ?_, ?_, ?_⟩
  · rw [convert_tools_snd_eq_fold, fold_convert_get inner _ _ _
      (List.mem_map_of_mem _ ht) hnd, hp]
    rfl
  · cases inner <;> simp [translate_parameters]
  · intro hi
    subst hi
    have hmapkey : ((p.properties.map
        (fun kv => (kv.1, { kv.2 with type := pyUpper kv.2.type }))).map
          Prod.fst).contains INNER_THOUGHTS_KWARG = false := by
      rw [List.map_map]
      simpa using hnokey
    constructor
    · simp only [translate_parameters, if_true, dictSet, hmapkey]
      simp
    · simp [translate_parameters]
  · intro hi
    subst hi
    exact ⟨by simp [translate_parameters], by simp [translate_parameters]⟩

/-- Witness for C5 at a concrete one-tool list. -/
theorem C5_convert_tools_schema_witness :
    ∃ q : FunctionParameters,
      (convert_tools_to_google_ai_format
          [{ function := { name := "f", description := "d", parameters := 0 } }]
          true
          [{ type := "object"
             properties := [("x", { type := "string", description := "dx" })]
             required := ["x"] }]).2.get? 0 = some q ∧
      q.type = "OBJECT" ∧
      (true = true →
        q.properties =
          [("x", { type := "STRING", description := "dx" }),
           (INNER_THOUGHTS_KWARG,
            { type := "STRING", description := INNER_THOUGHTS_KWARG_DESCRIPTION })] ∧
        q.required = ["x", INNER_THOUGHTS_KWARG]) ∧
      (true = false →
        q.properties = [("x", { type := "STRING", description := "dx" })] ∧
        q.required = ["x"]) := by
  have h := (C5_convert_tools_schema
      [{ function := { name := "f", description := "d", parameters := 0 } }]
      true
      [{ type := "object"
         properties := [("x", { type := "string", description := "dx" })]
         required := ["x"] }] (by decide)).2
      { function := { name := "f", description := "d", parameters := 0 } }
      (by decide)
      { type := "object"
        properties := [("x", { type := "string", description := "dx" })]
        required := ["x"] } rfl (by decide)
  obtain ⟨q, hq, hty, hin, hout⟩ := h
  exact ⟨q, hq, hty, fun _ => by simpa [pyUpper] using hin rfl, hout⟩

/-! C6 concerns aliasing: the translator mutates each referenced parameters
object in place, so two descriptors sharing one parameters object observe
the translation of each other.  Concrete shared-state instance: -/

/-- A parameters object shared (by reference `0`) between the two tools of
the C6 counterexample. -/
def C6_sharedParams : FunctionParameters :=
  { type := "object"
    properties := [("x", { type := "string", description := "dx" })]
    required := ["x"] }

/-- First tool of the C6 counterexample; its `parameters` reference is `0`. -/
def C6_tool1 : Tool :=
  { function := { name := "f1", description := "d1", parameters := 0 } }

/-- Second tool of the C6 counterexample; it references the same parameters
object `0` as `C6_tool1`. -/
def C6_tool2 : Tool :=
  { function := { name := "f2", description := "d2", parameters := 0 } }

/-- C6 counterexample: with two descriptors referencing the same parameters
object, translating the first one alters the schema seen through the second
(the claim says it does not), and the full conversion appends the reserved
reasoning key to the shared `required` list twice. -/
theorem C6_counterexample_shared_params_mutated :
    C6_tool2.function.parameters = C6_tool1.function.parameters ∧
    (convert_tools_step true [C6_sharedParams]
        C6_tool1.function.parameters).get? C6_tool2.function.parameters ≠
      [C6_sharedParams].get? C6_tool2.function.parameters ∧
    (∀ q : FunctionParameters,
      (convert_tools_to_google_ai_format [C6_tool1, C6_tool2] true
          [C6_sharedParams]).2.get? C6_tool2.function.parameters = some q →
      q.required = ["x", INNER_THOUGHTS_KWARG, INNER_THOUGHTS_KWARG]) := by
  refine ⟨rfl, by decide, ?_⟩
  intro q hq
  have : q = { type := "OBJECT"
               properties :=
                 [("x", { type := "STRING", description := "dx" }),
                  (INNER_THOUGHTS_KWARG,
                   { type := "STRING", description := INNER_THOUGHTS_KWARG_DESCRIPTION })]
               required := ["x", INNER_THOUGHTS_KWARG, INNER_THOUGHTS_KWARG] } := by
    have hq0 : (convert_tools_to_google_ai_format [C6_tool1, C6_tool2] true
        [C6_sharedParams]).2.get? C6_tool2.function.parameters =
        some { type := "OBJECT"
               properties :=
                 [("x", { type := "STRING", description := "dx" }),
                  (INNER_THOUGHTS_KWARG,
                   { type := "STRING", description := INNER_THOUGHTS_KWARG_DESCRIPTION })]
               required := ["x", INNER_THOUGHTS_KWARG, INNER_THOUGHTS_KWARG] } := by
      decide
    rw [hq0] at hq
    exact (Option.some_inj.mp hq).symm
  rw [this]

/-- C6 amended: translating one descriptor mutates only the parameters
object it references; every parameters object at a different reference is
left unchanged.  (When references coincide — including the original caller
`Tool`, which always shares its parameters object with the descriptor — the
mutation is observed through every alias, as the counterexample shows.) -/
theorem C6_amended_distinct_objects_independent (inner : Bool)
    (store : List FunctionParameters) (i j : Nat) (hij : i ≠ j) :
    (convert_tools_step inner store i).get? j = store.get? j :=
  convert_tools_step_get_ne inner store i j hij

/-- Witness for the amended C6 at concrete distinct references. -/
theorem C6_amended_distinct_objects_independent_witness :
    (convert_tools_step true [C6_sharedParams, C6_sharedParams] 0).get? 1 =
      [C6_sharedParams, C6_sharedParams].get? 1 :=
  C6_amended_distinct_objects_independent true _ 0 1 (by decide)

/-- C2: for a function-call part whose argument mapping contains the
reserved reasoning key with a non-null value, the interpreter (in
pull-inner-thoughts mode) yields a response message whose content is the
reasoning value and whose single tool call carries the injected fresh id,
type `"function"`, the function name of the part, and the compact JSON
serialization of the remaining arguments with the reasoning key removed. -/
theorem C2_tool_call_reconstruction (fc : RespFunctionCall) (tc_id : String)
    (txt : String) (v : JsonVal)
    (hv : lookupKey fc.args INNER_THOUGHTS_KWARG = some v) (hnn : v ≠ .null) :
    interp_part true tc_id { function_call := some fc, text := txt } =
      .ok { role := "assistant"
            content := some v
            tool_calls := some
              [{ id := tc_id
                 type := "function"
                 function :=
                   { name := fc.name
                     arguments := json_dumps_args
                       (removeKey fc.args INNER_THOUGHTS_KWARG) } }] } := by
  simp [interp_part, hv, hnn, clean_json_string_extra_backslash]

/-- Witness for C2 at the concrete example of the spec: reasoning
`"thinking..."` and remaining args `x = 1`. -/
theorem C2_tool_call_reconstruction_witness :
    interp_part true "tool_call_0"
        { function_call := some
            { name := "g"
              args := [(INNER_THOUGHTS_KWARG, .str "thinking..."), ("x", .num 1)] }
          text := "" } =
      .ok { role := "assistant"
            content := some (.str "thinking...")
            tool_calls := some
              [{ id := "tool_call_0"
                 type := "function"
                 function := { name := "g", arguments := "\x7b\"x\":1\x7d" } }] } := by
  have h := C2_tool_call_reconstruction
      { name := "g"
        args := [(INNER_THOUGHTS_KWARG, .str "thinking..."), ("x", .num 1)] }
      "tool_call_0" "" (.str "thinking...") rfl (by decide)
  exact h.trans rfl

/-- C3: the finish-reason mapping: `STOP` goes to `function_call` when the
emitted message carries at least one tool call and to `stop` otherwise;
`MAX_TOKENS` to `length`; `SAFETY` and `RECITATION` to `content_filter`; and
any other value raises a `ValueError` instead of producing a mapped reason. -/
theorem C3_finish_reason_mapping (msg : Message) (fr : String) :
    ((∃ tcs : List ToolCall, msg.tool_calls = some tcs ∧ tcs.length > 0) →
        map_finish_reason "STOP" msg = .ok "function_call") ∧
    ((∀ tcs : List ToolCall, msg.tool_calls = some tcs → tcs.length = 0) →
        map_finish_reason "STOP" msg = .ok "stop") ∧
    map_finish_reason "MAX_TOKENS" msg = .ok "length" ∧
    map_finish_reason "SAFETY" msg = .ok "content_filter" ∧
    map_finish_reason "RECITATION" msg = .ok "content_filter" ∧
    (fr ≠ "STOP" → fr ≠ "MAX_TOKENS" → fr ≠ "SAFETY" → fr ≠ "RECITATION" →
        map_finish_reason fr msg =
          .error (.valueError "Unrecognized finish reason in Google AI response")) := by
  refine ⟨?_, ?_, by simp [map_finish_reason], by simp [map_finish_reason],
    by simp [map_finish_reason], ?_⟩
  · rintro ⟨tcs, htc, hlen⟩
    simp [map_finish_reason, htc, hlen]
  · intro h
    cases htc : msg.tool_calls with
    | none => simp [map_finish_reason, htc]
    | some tcs => simp [map_finish_reason, htc, h tcs htc]
  · intro h1 h2 h3 h4
    simp [map_finish_reason, h1, h2, h3, h4]

/-- Witness for C3: a message with one tool call maps `STOP` to
`function_call`, and the provider value `FINISH_REASON_UNSPECIFIED` raises. -/
theorem C3_finish_reason_mapping_witness :
    map_finish_reason "STOP"
        { role := "assistant"
          content := none
          tool_calls := some
            [{ id := "i", type := "function"
               function := { name := "f", arguments := "\x7b\x7d" } }] } =
      .ok "function_call" ∧
    map_finish_reason "FINISH_REASON_UNSPECIFIED"
        { role := "assistant"
          content := none
          tool_calls := some
            [{ id := "i", type := "function"
               function := { name := "f", arguments := "\x7b\x7d" } }] } =
      .error (.valueError "Unrecognized finish reason in Google AI response") := by
  constructor
  · exact (C3_finish_reason_mapping
        { role := "assistant"
          content := none
          tool_calls := some
            [{ id := "i", type := "function"
               function := { name := "f", arguments := "\x7b\x7d" } }] }
        "FINISH_REASON_UNSPECIFIED").1 ⟨_, rfl, by decide⟩
  · exact (C3_finish_reason_mapping
        { role := "assistant"
          content := none
          tool_calls := some
            [{ id := "i", type := "function"
               function := { name := "f", arguments := "\x7b\x7d" } }] }
        "FINISH_REASON_UNSPECIFIED").2.2.2.2.2
      (by decide) (by decide) (by decide) (by decide)

/-! Lemmas for C7: a successful loop run certifies that every function-call
part carried the reserved reasoning key. -/

theorem process_parts_ok_inner_thoughts (gen_id : Nat → String) (fr : String) :
    ∀ (ps : List RespPart) (st st' : LoopState),
      process_parts true gen_id fr st ps = .ok st' →
      ∀ p ∈ ps, ∀ fc : RespFunctionCall, p.function_call = some fc →
        lookupKey fc.args INNER_THOUGHTS_KWARG ≠ none
  | [], _, _, _, p, hp => absurd hp (List.not_mem_nil p)
  | q :: ps, st, st', h, p, hp => by
    unfold process_parts at h
    cases h1 : process_part true gen_id fr st q with
    | error e => simp [h1] at h
    | ok st1 =>
      rw [h1] at h
      rcases List.mem_cons.mp hp with rfl | hmem
      · intro fc hfc hnone
        simp [process_part, interp_part, hfc, hnone] at h1
      · exact process_parts_ok_inner_thoughts gen_id fr ps st1 st' h p hmem

theorem process_candidates_ok_inner_thoughts (gen_id : Nat → String) :
    ∀ (cs : List Candidate) (st st' : LoopState),
      process_candidates true gen_id st cs = .ok st' →
      ∀ c ∈ cs, ∀ p ∈ c.content.parts, ∀ fc : RespFunctionCall,
        p.function_call = some fc →
        lookupKey fc.args INNER_THOUGHTS_KWARG ≠ none
  | [], _, _, _, c, hc => absurd hc (List.not_mem_nil c)
  | d :: cs, st, st', h, c, hc => by
    unfold process_candidates at h
    cases h1 : process_candidate true gen_id st d with
    | error e => simp [h1] at h
    | ok st1 =>
      rw [h1] at h
      rcases List.mem_cons.mp hc with rfl | hmem
      · intro p hp fc hfc
        unfold process_candidate at h1
        by_cases hrole : c.content.role = "model"
        · rw [if_pos hrole] at h1
          exact process_parts_ok_inner_thoughts gen_id c.finish_reason
            c.content.parts st st1 h1 p hp fc hfc
        · rw [if_neg hrole] at h1
          cases h1
      · exact process_candidates_ok_inner_thoughts gen_id cs st1 st' h c hmem

/-- C7: in pull-inner-thoughts mode, a function-call part whose argument
mapping omits the reserved reasoning key makes the whole conversion fail
with a hard error — no `ChatCompletionResponse` (and hence no partial
`Choice`) is ever returned. -/
theorem C7_missing_reasoning_hard_error (count_tokens : String → Nat)
    (gen_id : Nat → String) (response_id : String) (created : Nat)
    (response : GenerateContentResponse) (model : String)
    (input_messages : Option (List Turn))
    (cand : Candidate) (hc : cand ∈ response.candidates)
    (p : RespPart) (hp : p ∈ cand.content.parts)
    (fc : RespFunctionCall) (hfc : p.function_call = some fc)
    (hmiss : lookupKey fc.args INNER_THOUGHTS_KWARG = none) :
    ∃ e, convert_google_ai_response_to_chatcompletion count_tokens gen_id
        response_id created response model input_messages true = .error e := by
  cases hres : convert_google_ai_response_to_chatcompletion count_tokens gen_id
      response_id created response model input_messages true with
  | error e => exact ⟨e, rfl⟩
  | ok r =>
    exfalso
    unfold convert_google_ai_response_to_chatcompletion at hres
    cases hfold : process_candidates true gen_id
        { choices := [], index := 0, last_message := none } response.candidates with
    | error e => simp [hfold] at hres
    | ok st =>
      exact process_candidates_ok_inner_thoughts gen_id response.candidates _ st
        hfold cand hc p hp fc hfc hmiss

/-- Witness for C7 at a concrete response whose single function-call part
has no reasoning key in its arguments. -/
theorem C7_missing_reasoning_hard_error_witness :
    ∃ e, convert_google_ai_response_to_chatcompletion (fun s => s.length)
        (fun _ => "tc") "rid" 0
        { candidates :=
            [{ content :=
                 { role := "model"
                   parts := [{ function_call := some { name := "g", args := [("x", .num 1)] }
                               text := "" }] }
               finish_reason := "STOP" }]
          usage_metadata := none }
        "m" (some []) true = .error e :=
  C7_missing_reasoning_hard_error (fun s => s.length) (fun _ => "tc") "rid" 0
    { candidates :=
        [{ content :=
             { role := "model"
               parts := [{ function_call := some { name := "g", args := [("x", .num 1)] }
                           text := "" }] }
           finish_reason := "STOP" }]
      usage_metadata := none }
    "m" (some [])
    { content :=
        { role := "model"
          parts := [{ function_call := some { name := "g", args := [("x", .num 1)] }
                      text := "" }] }
      finish_reason := "STOP" }
    (List.mem_cons_self _ _)
    { function_call := some { name := "g", args := [("x", .num 1)] }, text := "" }
    (List.mem_cons_self _ _)
    { name := "g", args := [("x", .num 1)] } rfl rfl

/-! Lemmas for C8/C9: after the loop, `last_message` is the message of the
last accumulated choice. -/

theorem process_part_last_message (pull : Bool) (gen_id : Nat → String)
    (fr : String) (st : LoopState) (p : RespPart) (st' : LoopState)
    (h : process_part pull gen_id fr st p = .ok st') :
    st'.last_message = st'.choices.getLast?.map Choice.message := by
  unfold process_part at h
  cases h1 : interp_part pull (gen_id st.index) p with
  | error e => simp [h1] at h
  | ok msg =>
    simp only [h1] at h
    cases h2 : map_finish_reason fr msg with
    | error e => simp [h2] at h
    | ok ofr =>
      simp only [h2] at h
      injection h with h
      subst h
      simp

theorem process_parts_last_message (pull : Bool) (gen_id : Nat → String)
    (fr : String) :
    ∀ (ps : List RespPart) (st st' : LoopState),
      st.last_message = st.choices.getLast?.map Choice.message →
      process_parts pull gen_id fr st ps = .ok st' →
      st'.last_message = st'.choices.getLast?.map Choice.message
  | [], st, st', hst, h => by
    unfold process_parts at h
    injection h with h
    subst h
    exact hst
  | p :: ps, st, st', hst, h => by
    unfold process_parts at h
    cases h1 : process_part pull gen_id fr st p with
    | error e => simp [h1] at h
    | ok st1 =>
      rw [h1] at h
      exact process_parts_last_message pull gen_id fr ps st1 st'
        (process_part_last_message pull gen_id fr st p st1 h1) h

theorem process_candidates_last_message (pull : Bool) (gen_id : Nat → String) :
    ∀ (cs : List Candidate) (st st' : LoopState),
      st.last_message = st.choices.getLast?.map Choice.message →
      process_candidates pull gen_id st cs = .ok st' →
      st'.last_message = st'.choices.getLast?.map Choice.message
  | [], st, st', hst, h => by
    unfold process_candidates at h
    injection h with h
    subst h
    exact hst
  | c :: cs, st, st', hst, h => by
    unfold process_candidates at h
    cases h1 : process_candidate pull gen_id st c with
    | error e => simp [h1] at h
    | ok st1 =>
      rw [h1] at h
      refine process_candidates_last_message pull gen_id cs st1 st' ?_ h
      unfold process_candidate at h1
      by_cases hrole : c.content.role = "model"
      · rw [if_pos hrole] at h1
        exact process_parts_last_message pull gen_id c.finish_reason
          c.content.parts st st1 hst h1
      · rw [if_neg hrole] at h1
        cases h1

/-- C8: the usage reconciler copies the three native counters verbatim when
usage metadata is present; when it is absent and input turns were supplied,
it sets `prompt_tokens` to the injected token count of the serialized input
turns, `completion_tokens` to the count of the serialized final response
message (the message of the last emitted choice), and `total_tokens` to
their sum; and when both the metadata and the input turns are absent it
fails with a hard error. -/
theorem C8_usage_reconciler (count_tokens : String → Nat)
    (gen_id : Nat → String) (response_id : String) (created : Nat)
    (response : GenerateContentResponse) (model : String)
    (input_messages : Option (List Turn)) (pull : Bool) :
    (∀ um : UsageMetadata, response.usage_metadata = some um →
      ∀ r : ChatCompletionResponse,
        convert_google_ai_response_to_chatcompletion count_tokens gen_id
          response_id created response model input_messages pull = .ok r →
        r.usage = { prompt_tokens := um.prompt_token_count
                    completion_tokens := um.candidates_token_count
                    total_tokens := um.total_token_count }) ∧
    (response.usage_metadata = none →
      ∀ msgs : List Turn, input_messages = some msgs →
      ∀ r : ChatCompletionResponse,
        convert_google_ai_response_to_chatcompletion count_tokens gen_id
          response_id created response model input_messages pull = .ok r →
        r.usage.prompt_tokens = count_tokens (json_dumps_turns msgs) ∧
        (∀ c : Choice, r.choices.getLast? = some c →
          r.usage.completion_tokens = count_tokens (json_dumps_message c.message)) ∧
        r.usage.total_tokens = r.usage.prompt_tokens + r.usage.completion_tokens) ∧
    (response.usage_metadata = none → input_messages = none →
      ∃ e, convert_google_ai_response_to_chatcompletion count_tokens gen_id
        response_id created response model input_messages pull = .error e) := by
  refine ⟨?_, ?_, ?_⟩
  · intro um hum r hok
    unfold convert_google_ai_response_to_chatcompletion at hok
    cases hfold : process_candidates pull gen_id
        { choices := [], index := 0, last_message := none } response.candidates with
    | error e => simp [hfold] at hok
    | ok st =>
      simp only [hfold] at hok
      unfold compute_usage at hok
      simp only [hum] at hok
      injection hok with hok
      subst hok
      rfl
  · intro hum msgs hmsgs r hok
    unfold convert_google_ai_response_to_chatcompletion at hok
    cases hfold : process_candidates pull gen_id
        { choices := [], index := 0, last_message := none } response.candidates with
    | error e => simp [hfold] at hok
    | ok st =>
      simp only [hfold] at hok
      have hinv := process_candidates_last_message pull gen_id response.candidates
        _ st rfl hfold
      unfold compute_usage at hok
      simp only [hum, hmsgs] at hok
      cases hlast : st.last_message with
      | none => simp [hlast] at hok
      | some m =>
        simp only [hlast] at hok
        injection hok with hok
        subst hok
        refine ⟨rfl, ?_, rfl⟩
        intro c hc
        rw [hlast, hc] at hinv
        have : c.message = m := by
          simpa using hinv.symm
        rw [this]
  · intro hum hmsgs
    cases hres : convert_google_ai_response_to_chatcompletion count_tokens gen_id
        response_id created response model input_messages pull with
    | error e => exact ⟨e, rfl⟩
    | ok r =>
      exfalso
      unfold convert_google_ai_response_to_chatcompletion at hres
      cases hfold : process_candidates pull gen_id
          { choices := [], index := 0, last_message := none } response.candidates with
      | error e => simp [hfold] at hres
      | ok st =>
        simp only [hfold] at hres
        unfold compute_usage at hres
        simp only [hum, hmsgs] at hres
        cases hres

/-- Witness for C8 at a concrete response carrying native usage metadata. -/
theorem C8_usage_reconciler_witness :
    convert_google_ai_response_to_chatcompletion (fun s => s.length)
        (fun _ => "tc") "rid" 0
        { candidates := [], usage_metadata := some ⟨3, 4, 7⟩ } "m" none true =
      .ok { id := "rid", choices := [], model := "m", created := 0
            usage := ⟨3, 4, 7⟩ } ∧
    ({ id := "rid", choices := [], model := "m", created := 0
       usage := ⟨3, 4, 7⟩ } : ChatCompletionResponse).usage =
      { prompt_tokens := 3, completion_tokens := 4, total_tokens := 7 } :=
  ⟨rfl,
    (C8_usage_reconciler (fun s => s.length) (fun _ => "tc") "rid" 0
        { candidates := [], usage_metadata := some ⟨3, 4, 7⟩ } "m" none true).1
      ⟨3, 4, 7⟩ rfl
      { id := "rid", choices := [], model := "m", created := 0, usage := ⟨3, 4, 7⟩ }
      rfl⟩

/-- C9 counterexample: the metadata path copies the counters of the provider
without recomputation, so a response whose native metadata has
`total_token_count = 5` with `prompt = 1` and `candidates = 1` produces a
`UsageStatistics` violating `total_tokens = prompt_tokens +
completion_tokens`. -/
theorem C9_counterexample_usage_not_conserved :
    convert_google_ai_response_to_chatcompletion (fun s => s.length)
        (fun _ => "tc") "rid" 0
        { candidates := [], usage_metadata := some ⟨1, 1, 5⟩ } "m" none true =
      .ok { id := "rid", choices := [], model := "m", created := 0
            usage := ⟨1, 1, 5⟩ } ∧
    ¬ (({ id := "rid", choices := [], model := "m", created := 0
          usage := ⟨1, 1, 5⟩ } : ChatCompletionResponse).usage.total_tokens =
        ({ id := "rid", choices := [], model := "m", created := 0
           usage := ⟨1, 1, 5⟩ } : ChatCompletionResponse).usage.prompt_tokens +
        ({ id := "rid", choices := [], model := "m", created := 0
           usage := ⟨1, 1, 5⟩ } : ChatCompletionResponse).usage.completion_tokens) :=
  ⟨rfl, by decide⟩

/-- C9 amended: every `UsageStatistics` built by the token-counting fallback
satisfies `total_tokens = prompt_tokens + completion_tokens`; the metadata
path copies the three provider counters verbatim, so the identity holds
there exactly when the provider metadata itself satisfies it. -/
theorem C9_amended_usage_conservation (count_tokens : String → Nat)
    (gen_id : Nat → String) (response_id : String) (created : Nat)
    (response : GenerateContentResponse) (model : String)
    (input_messages : Option (List Turn)) (pull : Bool)
    (r : ChatCompletionResponse)
    (hok : convert_google_ai_response_to_chatcompletion count_tokens gen_id
      response_id created response model input_messages pull = .ok r)
    (hmeta : response.usage_metadata = none ∨
      ∃ um : UsageMetadata, response.usage_metadata = some um ∧
        um.total_token_count = um.prompt_token_count + um.candidates_token_count) :
    r.usage.total_tokens = r.usage.prompt_tokens + r.usage.completion_tokens := by
  unfold convert_google_ai_response_to_chatcompletion at hok
  cases hfold : process_candidates pull gen_id
      { choices := [], index := 0, last_message := none } response.candidates with
  | error e => simp [hfold] at hok
  | ok st =>
    simp only [hfold] at hok
    unfold compute_usage at hok
    rcases hmeta with hum | ⟨um, hum, hsum⟩
    · simp only [hum] at hok
      cases hmsgs : input_messages with
      | none => simp [hmsgs] at hok
      | some msgs =>
        simp only [hmsgs] at hok
        cases hlast : st.last_message with
        | none => simp [hlast] at hok
        | some m =>
          simp only [hlast] at hok
          injection hok with hok
          subst hok
          rfl
    · simp only [hum] at hok
      injection hok with hok
      subst hok
      exact hsum

/-- Witness for the amended C9 at a concrete fallback-path response. -/
theorem C9_amended_usage_conservation_witness :
    convert_google_ai_response_to_chatcompletion (fun s => s.length)
        (fun _ => "tc") "rid" 0
        { candidates :=
            [{ content :=
                 { role := "model"
                   parts := [{ function_call := none, text := "hi" }] }
               finish_reason := "STOP" }]
          usage_metadata := none }
        "m" (some []) true =
      .ok { id := "rid"
            choices :=
              [{ finish_reason := "stop", index := 0
                 message := { role := "assistant", content := some (.str "hi")
                              tool_calls := none } }]
            model := "m", created := 0, usage := ⟨0, 19, 19⟩ } ∧
    (({ id := "rid"
        choices :=
          [{ finish_reason := "stop", index := 0
             message := { role := "assistant", content := some (.str "hi")
                          tool_calls := none } }]
        model := "m", created := 0
        usage := ⟨0, 19, 19⟩ } : ChatCompletionResponse).usage.total_tokens =
      ({ id := "rid"
         choices :=
           [{ finish_reason := "stop", index := 0
              message := { role := "assistant", content := some (.str "hi")
                           tool_calls := none } }]
         model := "m", created := 0
         usage := ⟨0, 19, 19⟩ } : ChatCompletionResponse).usage.prompt_tokens +
      ({ id := "rid"
         choices :=
           [{ finish_reason := "stop", index := 0
              message := { role := "assistant", content := some (.str "hi")
                           tool_calls := none } }]
         model := "m", created := 0
         usage := ⟨0, 19, 19⟩ } : ChatCompletionResponse).usage.completion_tokens) := by
  constructor
  · rfl
  · exact C9_amended_usage_conservation (fun s => s.length) (fun _ => "tc") "rid" 0
      { candidates :=
          [{ content :=
               { role := "model"
                 parts := [{ function_call := none, text := "hi" }] }
             finish_reason := "STOP" }]
        usage_metadata := none }
      "m" (some []) true
      { id := "rid"
        choices :=
          [{ finish_reason := "stop", index := 0
             message := { role := "assistant", content := some (.str "hi")
                          tool_calls := none } }]
        model := "m", created := 0, usage := ⟨0, 19, 19⟩ }
      rfl (Or.inl rfl)

end GoogleVertex
